import Mathlib

/-!
Verification development for the attachment-archiving scraper
(src/gaussReconstruction/111.py).

Python strings are embedded as `List Char`; the browser, the HTTP client,
the filesystem and the archive expander are external effects, embedded as
explicit environments (records of oracle functions) so that every code
path of the Python source becomes a pure, executable Lean function of the
environment.  Machine-level concerns the source never relies on (UTF-8
byte lengths, inode semantics) are abstracted; local filesystem helpers
that the source treats as infallible (os.makedirs, shutil.copy2,
shutil.rmtree(ignore_errors=True), os.walk) are modelled as total.
-/

namespace Scraper

/-! ## Basic character and string helpers -/

/-- Named characters, avoiding quote-character literals. -/
def squote : Char := Char.ofNat 39

/-- Double quote character. -/
def dquote : Char := Char.ofNat 34

/-- Backslash character. -/
def backslashChar : Char := Char.ofNat 92

/-- Less-than character. -/
def ltChar : Char := Char.ofNat 60

/-- Greater-than character. -/
def gtChar : Char := Char.ofNat 62

/-- Vertical-bar character. -/
def pipeChar : Char := Char.ofNat 124

/-- Carriage-return character. -/
def crChar : Char := Char.ofNat 13

/-- Line-feed character. -/
def lfChar : Char := Char.ofNat 10

/-- Slash character. -/
def slashChar : Char := '/'

/-- Dot character. -/
def dotChar : Char := '.'

/-- Python str.lower for the ASCII range the scraper handles. -/
def lower (l : List Char) : List Char := l.map Char.toLower

/-- Python str.strip: whitespace removed from both ends. -/
def strip (l : List Char) : List Char :=
  ((l.dropWhile Char.isWhitespace).reverse.dropWhile Char.isWhitespace).reverse

/-- Python str.startswith. -/
def startsWithStr (s pre : List Char) : Bool := pre.isPrefixOf s

/-- First occurrence scan: the remainder of `l` after the first occurrence of
`pat`, or none when `pat` does not occur.  Fuel is the length of `l`, enough
for every start position. -/
def afterSubAux (pat : List Char) : Nat → List Char → Option (List Char)
  | 0, _ => none
  | _ + 1, [] => if pat.isEmpty then some [] else none
  | fuel + 1, c :: cs =>
    if pat.isPrefixOf (c :: cs) then some ((c :: cs).drop pat.length)
    else afterSubAux pat fuel cs

/-- Remainder after the first occurrence of `pat` in `l`. -/
def afterSub (pat l : List Char) : Option (List Char) := afterSubAux pat (l.length + 1) l

/-- Python substring containment, the `pat in hay` test. -/
def containsSub (hay pat : List Char) : Bool := (afterSub pat hay).isSome

/-- Characters up to (excluding) the first occurrence of `c`; whole list if absent. -/
def beforeChar (c : Char) (l : List Char) : List Char := l.takeWhile (fun x => x ≠ c)

/-- Characters after the first occurrence of `c`; empty if absent. -/
def afterChar (c : Char) (l : List Char) : List Char :=
  (l.dropWhile (fun x => x ≠ c)).tail

/-- Drop every trailing occurrence of `c`. -/
def dropTrailing (c : Char) (l : List Char) : List Char :=
  (l.reverse.dropWhile (fun x => x = c)).reverse

/-- The suffix after the last occurrence of `c` (the whole list if absent). -/
def afterLast (c : Char) (l : List Char) : List Char :=
  (l.reverse.takeWhile (fun x => x ≠ c)).reverse

/-- The prefix of `l` up to and including the last occurrence of `c`
(empty if absent). -/
def untilLastIncl (c : Char) (l : List Char) : List Char :=
  (l.reverse.dropWhile (fun x => x ≠ c)).reverse

/-- Python bool formatting, as used by f-string interpolation of a bool. -/
def boolStr (b : Bool) : List Char := if b then "True".data else "False".data

/-- Decimal rendering of a number, as Python str(int). -/
def natToChars (n : Nat) : List Char := (toString n).data

/-! ## Configuration constants (111.py lines 74-80) -/

/-- ATTACH_EXTS list of 111.py line 74: the recognized attachment extensions. -/
def ATTACH_EXTS : List (List Char) :=
  [ ".pdf".data, ".doc".data, ".docx".data, ".xls".data,
    ".xlsx".data, ".zip".data, ".rar".data, ".txt".data ]

/-- CLICK_NEW_WINDOW_WAIT = 8 seconds polled every 0.3 s (lines 78, 467, 491):
the new-window probe performs at most this many handle-set polls. -/
def NEW_WINDOW_POLLS : Nat := 27

/-- PERF_POLL_ITER of line 79: number of performance-log polls. -/
def PERF_POLL_ITER : Nat := 6

/-! ## Utility functions of 111.py lines 106-128 -/

/-- Membership in the character class of the first re.sub of sanitize_filename,
backslash slash colon star question double-quote angle-brackets bar CR LF. -/
def forbiddenFilenameChar (c : Char) : Bool :=
  c = backslashChar || c = slashChar || c = ':' || c = '*' || c = '?' ||
    c = dquote || c = ltChar || c = gtChar || c = pipeChar || c = crChar || c = lfChar

/-- Run collapsing as performed by re.sub with a one-or-more character class:
every maximal run of characters satisfying `p` becomes the single char `r`. -/
def collapseRunsAux (p : Char → Bool) (r : Char) (inRun : Bool) : List Char → List Char
  | [] => []
  | c :: rest =>
    if p c then
      (if inRun then [] else [r]) ++ collapseRunsAux p r true rest
    else c :: collapseRunsAux p r false rest

/-- Collapse every maximal `p`-run of the list into one `r`. -/
def collapseRuns (p : Char → Bool) (r : Char) (l : List Char) : List Char :=
  collapseRunsAux p r false l

/-- sanitize_filename of 111.py lines 106-111: forbidden-character runs then
whitespace runs each become one underscore, then strip, then cap at 200. -/
def sanitize_filename (name : List Char) : List Char :=
  if name.isEmpty then []
  else
    List.take 200 (strip (collapseRuns Char.isWhitespace '_'
      (collapseRuns forbiddenFilenameChar '_' name)))

/-- short_title of line 113: sanitized title capped at 15 characters. -/
def short_title (text : List Char) : List Char := List.take 15 (sanitize_filename text)

/-- Hexadecimal digit value, for percent decoding. -/
def hexVal (c : Char) : Option Nat :=
  let n := c.toNat
  if 48 ≤ n && n ≤ 57 then some (n - 48)
  else if 65 ≤ n && n ≤ 70 then some (n - 55)
  else if 97 ≤ n && n ≤ 102 then some (n - 87)
  else none

/-- Modelled from the library function urllib.parse.unquote for single-byte
escapes: a valid percent escape decodes to its byte, an invalid one is kept
verbatim (multi-byte UTF-8 reassembly is not modelled; the scraper only
feeds it ASCII file names). -/
def unquote : List Char → List Char
  | [] => []
  | c :: a :: b :: rest2 =>
    if c = '%' then
      match hexVal a, hexVal b with
      | some x, some y => Char.ofNat (16 * x + y) :: unquote rest2
      | _, _ => c :: unquote (a :: b :: rest2)
    else c :: unquote (a :: b :: rest2)
  | c :: rest => c :: unquote rest

/-- Modelled from the library function urllib.parse.urlparse: the path
component for the absolute http URLs and plain paths the scraper handles —
fragment then query are cut, and for scheme://host URLs the path starts at
the first slash after the host. -/
def urlparse_path (u : List Char) : List Char :=
  let noFrag := beforeChar '#' u
  let noQuery := beforeChar '?' noFrag
  match afterSub ( "://".data ) noQuery with
  | some rest => rest.dropWhile (fun c => c ≠ slashChar)
  | none => noQuery

/-- Modelled from urllib.parse.urlparse: the fragment component. -/
def urlparse_fragment (u : List Char) : List Char := afterChar '#' u

/-- Modelled from pathlib PurePath.name: trailing slashes dropped, then the
part after the last slash. -/
def pathName (p : List Char) : List Char := afterLast slashChar (dropTrailing slashChar p)

/-- Modelled from pathlib PurePath.parent rendered as a string, for the
slash-separated paths the scraper builds. -/
def pathParent (p : List Char) : List Char :=
  let t := dropTrailing slashChar p
  let r := untilLastIncl slashChar t
  if r.isEmpty then ".".data
  else if (dropTrailing slashChar r).isEmpty then "/".data
  else dropTrailing slashChar r

/-- Modelled from pathlib PurePath.suffix: the last dot-suffix of the name,
empty when the name has no dot, only a leading dot, or a trailing dot. -/
def pathSuffix (p : List Char) : List Char :=
  let n := pathName p
  let revAfter := n.reverse.takeWhile (fun c => c ≠ dotChar)
  if revAfter.length = n.length then []
  else if revAfter.isEmpty then []
  else if revAfter.length + 1 = n.length then []
  else dotChar :: revAfter.reverse

/-- derive_filename_from_url of 111.py lines 116-119: the last path component,
else the fragment, else the word download; percent-decoded and sanitized. -/
def derive_filename_from_url (url : List Char) : List Char :=
  let path := urlparse_path url
  let base := pathName path
  let frag := urlparse_fragment url
  let chosen := if !base.isEmpty then base else if !frag.isEmpty then frag else "download".data
  sanitize_filename (unquote chosen)

/-- looks_like_attachment of 111.py lines 121-125, kept with the redundant
second disjunct of the source: after lowercasing, some extension is a suffix,
or is contained while some extension is a suffix.  The falsy-input guard of
the source (None or empty string) is the isEmpty test. -/
def looks_like_attachment (s : List Char) : Bool :=
  if s.isEmpty then false
  else ATTACH_EXTS.any (fun ext =>
    ext.isSuffixOf (lower s) ||
      (containsSub (lower s) ext && ATTACH_EXTS.any (fun e2 => e2.isSuffixOf (lower s))))

/-- Modelled from the spec glossary: an attachment-shaped URL is one whose
path component ends in a recognized document or archive extension
(case-insensitively).  Kept distinct from looks_like_attachment so the two
can be compared. -/
def spec_attachment_shaped (u : List Char) : Bool :=
  ATTACH_EXTS.any (fun e => e.isSuffixOf (lower (urlparse_path u)))

/-! ## urljoin model -/

/-- Scheme part of a URL including the colon, e.g. the five characters of
http colon. -/
def takeScheme (b : List Char) : List Char := beforeChar ':' b ++ [ ':' ]

/-- Scheme plus authority of a scheme://host URL, i.e. everything before the
path. -/
def schemeHost (b : List Char) : List Char :=
  match afterSub ( "://".data ) b with
  | some rest =>
    let hostLen := (rest.takeWhile (fun c => c ≠ slashChar)).length
    b.take (b.length - rest.length + hostLen)
  | none => b

/-- Directory part of a base URL: everything through the last slash of the
path; a host-only base gains a slash. -/
def dirnameUrl (b : List Char) : List Char :=
  match afterSub ( "://".data ) b with
  | some rest =>
    let pathPart := rest.dropWhile (fun c => c ≠ slashChar)
    if pathPart.isEmpty then b ++ [ slashChar ]
    else b.take (b.length - pathPart.length) ++ untilLastIncl slashChar pathPart
  | none => untilLastIncl slashChar b

/-- Modelled from the library function urllib.parse.urljoin for the cases the
scraper exercises: an absolute URL is returned unchanged, a protocol-relative
reference keeps the scheme of the base, a root-relative reference keeps
scheme and host, and a relative reference resolves against the directory of
the base. -/
def urljoin (base rel : List Char) : List Char :=
  if rel.isEmpty then base
  else if containsSub rel ( "://".data ) then rel
  else if startsWithStr rel ( "//".data ) then takeScheme base ++ rel
  else if startsWithStr rel ( "/".data ) then schemeHost base ++ rel
  else dirnameUrl base ++ rel

/-! ## Regex models: href attributes and GetValidateCode arguments -/

/-- Quote characters of the href regex character classes. -/
def isQuoteChar (c : Char) : Bool := c = squote || c = dquote

/-- One attempted match of the pattern href=quote content quote at the head of
`l` (case-insensitive on the fixed part, nonempty quote-free content), as in
the regex used at 111.py lines 527 and 584.  Returns the captured content and
the remainder after the match. -/
def tryHrefAt (l : List Char) : Option (List Char × List Char) :=
  if lower (l.take 5) = "href=".data then
    match l.drop 5 with
    | [] => none
    | q :: rest =>
      if isQuoteChar q then
        let content := rest.takeWhile (fun c => !(isQuoteChar c))
        match rest.dropWhile (fun c => !(isQuoteChar c)) with
        | [] => none
        | _ :: rest2 => if content.isEmpty then none else some (content, rest2)
      else none
  else none

/-- Left-to-right non-overlapping scan, as re.findall; fuel bounds the scan by
the input length (each step consumes at least one character). -/
def findAllHrefAux : Nat → List Char → List (List Char)
  | 0, _ => []
  | _ + 1, [] => []
  | fuel + 1, c :: cs =>
    match tryHrefAt (c :: cs) with
    | some (content, rest) => content :: findAllHrefAux fuel rest
    | none => findAllHrefAux fuel cs

/-- All captured href attribute values of a markup string, in order. -/
def findAllHrefAttrs (l : List Char) : List (List Char) := findAllHrefAux l.length l

/-- One attempted match of the GetValidateCode pattern of 111.py line 443 at
the head of `l`: the literal call name and parenthesis, an optional quote, a
nonempty run free of quotes and closing parentheses, an optional quote, a
closing parenthesis.  Returns the captured argument. -/
def tryGVCAt (l : List Char) : Option (List Char) :=
  if l.take 16 = "GetValidateCode(".data then
    let r := l.drop 16
    let r1 := match r with
      | q :: t => if isQuoteChar q then t else q :: t
      | [] => []
    let content := r1.takeWhile (fun c => !(isQuoteChar c) && c ≠ ')')
    let r2 := r1.dropWhile (fun c => !(isQuoteChar c) && c ≠ ')')
    if content.isEmpty then none
    else match r2 with
      | [] => none
      | c2 :: r3 =>
        if c2 = ')' then some content
        else
          match r3 with
          | c3 :: _ => if c3 = ')' then some content else none
          | [] => none
  else none

/-- Scan for the first GetValidateCode match, as re.search. -/
def gvcAux : Nat → List Char → Option (List Char)
  | 0, _ => none
  | _ + 1, [] => none
  | fuel + 1, c :: cs =>
    match tryGVCAt (c :: cs) with
    | some content => some content
    | none => gvcAux fuel cs

/-- Captured selid argument of the first GetValidateCode call of an onclick
attribute, or none (111.py lines 443-446). -/
def getValidateCodeArg (onclick : List Char) : Option (List Char) :=
  gvcAux onclick.length onclick

/-! ## Download wrapper (111.py lines 292-308)

The requests session is embedded as an environment: get is the outcome of
session.get (an error value standing for any raised exception — timeout,
connection failure), write the outcome of streaming the body to the output
path.  raise_for_status raises for 4xx/5xx statuses, embedded as the 400
threshold. -/

/-- HTTP response metadata the code inspects. -/
structure Resp where
  status : Nat

/-- Environment of download_with_session. -/
structure DlEnv where
  get : List Char → Except (List Char) Resp
  write : List Char → Except (List Char) Unit

/-- Output path computed at 111.py lines 295-296: override if truthy, else the
name derived from the URL, under the output directory. -/
def dws_out_path (url out_dir : List Char) (filename_override : Option (List Char)) :
    List Char :=
  let parsed_name :=
    match filename_override with
    | some n => if n.isEmpty then derive_filename_from_url url else n
    | none => derive_filename_from_url url
  out_dir ++ [ slashChar ] ++ parsed_name

/-- Body of the try block of download_with_session: get, raise_for_status,
stream to disk, return the path. -/
def dws_body (env : DlEnv) (url out_dir : List Char)
    (filename_override : Option (List Char)) : Except (List Char) (List Char) :=
  let out_path := dws_out_path url out_dir filename_override
  match env.get url with
  | .error e => .error e
  | .ok r =>
    if 400 ≤ r.status then .error ( "HTTPError".data )
    else
      match env.write out_path with
      | .error e => .error e
      | .ok _ => .ok out_path

/-- download_with_session of 111.py lines 292-308: the whole body is inside
one try block whose except arm logs and returns None, embedded as none. -/
def download_with_session (env : DlEnv) (url out_dir : List Char)
    (filename_override : Option (List Char)) : Option (List Char) :=
  match dws_body env url out_dir filename_override with
  | .ok p => some p
  | .error _ => none

/-! ## Upload to the knowledge store (111.py lines 372-381) -/

/-- Environment of upload_file_to_bisheng: openFile is the outcome of opening
the local file, post the outcome of the multipart requests.post (an error
standing for any raised exception). -/
structure BsEnv where
  openFile : List Char → Except (List Char) Unit
  post : Except (List Char) Nat

/-- upload_file_to_bisheng of 111.py lines 372-381: open, post,
raise_for_status, then (True, HTTP status); any exception yields
(False, UploadFailed message). -/
def upload_file_to_bisheng (env : BsEnv) (file_path : List Char) : Bool × List Char :=
  match env.openFile file_path with
  | .error e => (false, "UploadFailed: ".data ++ e)
  | .ok _ =>
    match env.post with
    | .error e => (false, "UploadFailed: ".data ++ e)
    | .ok st =>
      if 400 ≤ st then (false, "UploadFailed: ".data ++ "HTTPError".data)
      else (true, "HTTP".data ++ natToChars st)

/-! ## Archive expansion and per-file upload (111.py lines 313-367) -/

/-- Environment of extract_and_upload_file: extractZip and extractRar return
the basenames of the inner files in os.walk order (an error standing for an
expansion exception), patoolibAvailable whether the rar library imported,
upload the outcome of upload_file_to_bisheng at a destination path.
Filesystem copies are modelled as total. -/
structure UpEnv where
  patoolibAvailable : Bool
  extractZip : List Char → Except (List Char) (List (List Char))
  extractRar : List Char → Except (List Char) (List (List Char))
  upload : List Char → Bool × List Char

/-- Result of extract_and_upload_file: the uploaded-names and messages lists
it extends (the Python code mutates them in place), plus the ghost trace of
destination paths passed to upload_file_to_bisheng, in call order. -/
structure UpResult where
  uploaded : List (List Char)
  messages : List (List Char)
  attempts : List (List Char)

/-- Naming rule for an inner archive file, 111.py lines 325 and 346. -/
def inner_std_name (task_id page_title_15 archive_name fi : List Char) : List Char :=
  task_id ++ page_title_15 ++ "附件".data ++ archive_name ++ "_".data ++ fi

/-- Naming rule for a non-archive file, 111.py line 357. -/
def single_std_name (task_id page_title_15 file_name : List Char) : List Char :=
  task_id ++ page_title_15 ++ "附件".data ++ file_name

/-- Destination path of one inner archive file (archive parent directory plus
the standard name), 111.py line 326. -/
def inner_dest (path task_id page_title_15 fi : List Char) : List Char :=
  pathParent path ++ [ slashChar ] ++ inner_std_name task_id page_title_15 (pathName path) fi

/-- Narrative message recorded for one inner-file upload, 111.py line 329. -/
def perInnerMsg (env : UpEnv) (path task_id page_title_15 fi : List Char) : List Char :=
  let stdname := inner_std_name task_id page_title_15 (pathName path) fi
  let r := env.upload (inner_dest path task_id page_title_15 fi)
  "    上传解压文件 ".data ++ stdname ++ " => ".data ++ boolStr r.1 ++
    " (".data ++ r.2 ++ ")".data

/-- One inner-file step of the upload loop of 111.py lines 322-331: copy to
the standard-named destination, upload it, record the message, and keep the
name when the upload succeeded. -/
def uploadInner (env : UpEnv) (path task_id page_title_15 fi : List Char)
    (acc : UpResult) : UpResult :=
  let stdname := inner_std_name task_id page_title_15 (pathName path) fi
  let dest := inner_dest path task_id page_title_15 fi
  let r := env.upload dest
  { uploaded := acc.uploaded ++ (if r.1 then [stdname] else []),
    messages := acc.messages ++ [perInnerMsg env path task_id page_title_15 fi],
    attempts := acc.attempts ++ [dest] }

/-- extract_and_upload_file of 111.py lines 313-367: a zip or rar archive is
expanded and every inner file uploaded individually under the inner naming
rule; any other file is copied to the single-file name and uploaded once;
expansion failure only records a message. -/
def extract_and_upload_file (env : UpEnv) (path task_id page_title_15 : List Char)
    (uploaded messages : List (List Char)) : UpResult :=
  let sfx := lower (pathSuffix path)
  if sfx = ".zip".data then
    match env.extractZip path with
    | .error e =>
      { uploaded := uploaded, messages := messages ++ [ "  zip 解压失败: ".data ++ e ],
        attempts := [] }
    | .ok files =>
      files.foldl (fun acc fi => uploadInner env path task_id page_title_15 fi acc)
        { uploaded := uploaded,
          messages := messages ++ [ "  解压 zip 成功: ".data ++ pathName path ],
          attempts := [] }
  else if sfx = ".rar".data then
    if !env.patoolibAvailable then
      { uploaded := uploaded, messages := messages ++ [ "  patoolib 未安装，无法解压 rar".data ],
        attempts := [] }
    else
      match env.extractRar path with
      | .error e =>
        { uploaded := uploaded, messages := messages ++ [ "  rar 解压失败: ".data ++ e ],
          attempts := [] }
      | .ok files =>
        files.foldl (fun acc fi => uploadInner env path task_id page_title_15 fi acc)
          { uploaded := uploaded,
            messages := messages ++ [ "  rar 解压成功: ".data ++ pathName path ],
            attempts := [] }
  else
    let stdname := single_std_name task_id page_title_15 (pathName path)
    let dest := pathParent path ++ [ slashChar ] ++ stdname
    let r := env.upload dest
    { uploaded := uploaded ++ (if r.1 then [stdname] else []),
      messages := messages ++ [ "  上传文件 ".data ++ stdname ++ " => ".data ++
        boolStr r.1 ++ " (".data ++ r.2 ++ ")".data ],
      attempts := [dest] }

/-! ## The validation-link resolver (111.py lines 430-544)

Per candidate: a direct attachment href downloads immediately with no click;
otherwise the element is clicked and three probes run in order — new window,
performance-log trace, DOM container — each bounded, stopping at the first
successful download.  The browser and the downloader are the environment. -/

/-- Discovery tag of a resolved attachment (spec section 3). -/
inductive Via where
  | DirectHref
  | NewWindow
  | NetworkTrace
  | DomContainer
  | StaticScan
deriving DecidableEq

/-- Environment of the resolver: windowAt i is the URL of a new window handle
observed at handle-set poll i (none while no new window exists); perfAt i the
URLs extracted from the performance logs at poll i; containerHtml the
innerHTML of the element of a given id (none when find_element raises);
download the outcome of download_with_session at a URL (the local path on
success). -/
structure ProbeEnv where
  windowAt : Nat → Option (List Char)
  perfAt : Nat → List (List Char)
  currentUrl : List Char
  containerHtml : List Char → Option (List Char)
  download : List Char → Option (List Char)

/-- Bounded polling: the first some value of f at indices start, start+1, ...
within fuel steps. -/
def pollFirstFrom (f : Nat → Option (List Char)) (start : Nat) : Nat → Option (List Char)
  | 0 => none
  | fuel + 1 =>
    match f start with
    | some x => some x
    | none => pollFirstFrom f (start + 1) fuel

/-- Bounded polling from index zero. -/
def pollFirst (f : Nat → Option (List Char)) (fuel : Nat) : Option (List Char) :=
  pollFirstFrom f 0 fuel

/-- Probe A of 111.py lines 464-493: poll the window-handle set within the
ceiling; at the first new window read its URL, and when it is an absolute
attachment-shaped URL download it.  The spawned window is closed and focus
restored regardless (window bookkeeping has no further effect on the result,
so it is not part of the value). -/
def probeA (env : ProbeEnv) : Option (List Char) :=
  match pollFirst env.windowAt NEW_WINDOW_POLLS with
  | none => none
  | some w =>
    if startsWithStr w ( "http".data ) && looks_like_attachment w then env.download w
    else none

/-- Trace-record selection of 111.py lines 500-507: a perf URL is made
absolute when relative, and matches when attachment-shaped or containing the
down.bidcenter marker. -/
def perfMatch (currentUrl pu : List Char) : Option (List Char) :=
  let pu2 := if startsWithStr pu ( "http".data ) then pu else urljoin currentUrl pu
  if looks_like_attachment pu2 || containsSub pu2 ( "down.bidcenter".data ) then some pu2
  else none

/-- Probe B of 111.py lines 496-516: up to PERF_POLL_ITER polls of the
performance logs; the first matching URL is downloaded. -/
def probeB (env : ProbeEnv) : Option (List Char) :=
  match pollFirst (fun i => (env.perfAt i).findSome? (perfMatch env.currentUrl))
      PERF_POLL_ITER with
  | none => none
  | some u => env.download u

/-- Probe C of 111.py lines 519-540: when the onclick named a container id,
fetch that container, take the first href attribute of its markup, make it
absolute when relative, and download it. -/
def probeC (env : ProbeEnv) (selid : Option (List Char)) : Option (List Char) :=
  match selid with
  | none => none
  | some sid =>
    match env.containerHtml sid with
    | none => none
    | some inner =>
      match (findAllHrefAttrs inner).head? with
      | none => none
      | some cand =>
        let c2 := if startsWithStr cand ( "http".data ) then cand else urljoin env.currentUrl cand
        env.download c2

/-- The post-click fallback chain of 111.py lines 462-540: probes A, B, C in
order, each skipped once an earlier probe downloaded a file (the got_one
flag and continue statements of the source). -/
def after_click (env : ProbeEnv) (selid : Option (List Char)) : Option (List Char × Via) :=
  match probeA env with
  | some p => some (p, Via.NewWindow)
  | none =>
    match probeB env with
    | some p => some (p, Via.NetworkTrace)
    | none => (probeC env selid).map (fun p => (p, Via.DomContainer))

/-- An attachment candidate element found inside an iframe: its href and
onclick attributes (empty when absent, as the source coalesces None). -/
structure Candidate where
  href : List Char
  onclick : List Char

/-- Result of processing one candidate: the downloaded path and its discovery
tag if any, plus the ghost flag recording whether the element was clicked. -/
structure CandResult where
  download : Option (List Char × Via)
  clicked : Bool

/-- Per-candidate resolution of 111.py lines 430-541: Case 1 (lines 436-441)
downloads a direct absolute attachment href and continues without clicking;
otherwise the candidate is clicked (line 450) and the three probes run. -/
def process_candidate (env : ProbeEnv) (c : Candidate) : CandResult :=
  if (!c.href.isEmpty) && startsWithStr (lower (strip c.href)) ( "http".data ) &&
      looks_like_attachment c.href then
    { download := (env.download c.href).map (fun p => (p, Via.DirectHref)), clicked := false }
  else
    { download := after_click env (getValidateCodeArg c.onclick), clicked := true }

/-! ## Strategy B candidate collection (111.py lines 565-602) -/

/-- Anchor filter of 111.py line 579: nonempty href, not a javascript URL,
attachment-shaped. -/
def anchorFilter (href : List Char) : Bool :=
  (!href.isEmpty) && (!startsWithStr (lower (strip href)) ( "javascript".data )) &&
    looks_like_attachment href

/-- One step of the page-source scan of 111.py lines 584-588: an
attachment-shaped match is resolved against the current URL and appended
only when not already collected. -/
def directLinkStep (currentUrl : List Char) (cand : List (List Char)) (m : List Char) :
    List (List Char) :=
  if looks_like_attachment m then
    let full := urljoin currentUrl m
    if full ∈ cand then cand else cand ++ [full]
  else cand

/-- Candidate-URL collection of strategy_direct_links, 111.py lines 570-590:
all anchor hrefs passing the filter (appended unconditionally), then every
href-attribute match of the page markup via the dedup-checking step. -/
def strategy_direct_links_candidates (anchors : List (List Char)) (html currentUrl : List Char) :
    List (List Char) :=
  (findAllHrefAttrs html).foldl (directLinkStep currentUrl) (anchors.filter anchorFilter)

/-! ## The single-task orchestrator (111.py lines 607-686) -/

/-- Ghost events of a task run: the working-directory purge and creation of
lines 611-613, and driver.quit calls of lines 675-686. -/
inductive Ev where
  | purgeWorkDir
  | createWorkDir
  | quitDriver
deriving DecidableEq

/-- Structured result dictionary of handle_single_task.  The no_content and
error dictionaries of the source carry no uploaded key; the caller reads it
with a [] default (line 751), embedded as the empty list. -/
structure TaskResult where
  status : List Char
  uploaded : List (List Char)
  messages : List (List Char)

/-- Environment of handle_single_task: whether a stale working directory
exists, the outcomes of build_driver and driver.get (errors standing for
raised exceptions), the two title reads, the lists of files each strategy
downloads, the file-existence check of line 663, and the upload
environment.  titleTry is the outcome of the title try block of lines
624-633 (the h3 scan with its in-try driver.title fallback); titleExc is
the outcome of the driver.title call inside the except handler at line 635,
which the source leaves unprotected — consulted only when titleTry fails,
and when it fails too the exception escapes to the outer handler of line
671.  Build, navigation and that escape are thus the three failure exits of
the try block; every other internal failure is caught where it arises. -/
structure TaskEnv where
  workDirExists : Bool
  build : Except (List Char) Unit
  nav : Except (List Char) Unit
  titleTry : Except (List Char) (List Char)
  titleExc : Except (List Char) (List Char)
  stratA : List (List Char)
  stratB : List (List Char)
  fileExists : List Char → Bool
  upEnv : UpEnv

/-- Page-title extraction of 111.py lines 624-635: the try block's value, or
on its failure the except handler's unprotected driver.title read — whose
own failure propagates out of the title code. -/
def page_title_result (env : TaskEnv) : Except (List Char) (List Char) :=
  match env.titleTry with
  | .ok t => .ok t
  | .error _ => env.titleExc

/-- handle_single_task of 111.py lines 607-686: purge and recreate the task
working directory, build the driver, navigate, extract the title, run
strategy A then (only if it yielded nothing) strategy B, and either report
no_content or upload every downloaded file; build failure, navigation
failure, and the escape of the unprotected except-arm driver.title of line
635 each yield the error dictionary.  The finally clause quits the driver
whenever one was built; on the except path the driver is quit there as well
(lines 675-679) before the finally clause runs, hence two quit events. -/
def handle_single_task (env : TaskEnv) (task_id : List Char) : TaskResult × List Ev :=
  let ms0 := [ "--- [附件攻坚任务] ID ".data ++ task_id ++ " 已接收 ---".data ]
  let ev0 := (if env.workDirExists then [Ev.purgeWorkDir] else []) ++ [Ev.createWorkDir]
  match env.build with
  | .error e =>
    ({ status := "error".data, uploaded := [],
       messages := ms0 ++ [ "!!! 任务失败: ".data ++ e ] }, ev0)
  | .ok _ =>
    match env.nav with
    | .error e =>
      ({ status := "error".data, uploaded := [],
         messages := ms0 ++ [ "!!! 任务失败: ".data ++ e ] },
       ev0 ++ [Ev.quitDriver, Ev.quitDriver])
    | .ok _ =>
      match page_title_result env with
      | .error e =>
        ({ status := "error".data, uploaded := [],
           messages := ms0 ++ [ "!!! 任务失败: ".data ++ e ] },
         ev0 ++ [Ev.quitDriver, Ev.quitDriver])
      | .ok page_title =>
        let page_title_15 := short_title page_title
        let downloaded_a := env.stratA
        let downloaded_b := if downloaded_a.isEmpty then env.stratB else []
        let downloaded := downloaded_a ++ downloaded_b
        if downloaded.isEmpty then
          ({ status := "no_content".data, uploaded := [],
             messages := ms0 ++ [ "任务ID ".data ++ task_id ++ ": 未找到任何附件。".data ] },
           ev0 ++ [Ev.quitDriver])
        else
          let final := downloaded.foldl
            (fun acc f =>
              if env.fileExists f then
                let r := extract_and_upload_file env.upEnv f task_id page_title_15 acc.1 acc.2
                (r.uploaded, r.messages)
              else (acc.1, acc.2 ++ [ "  文件缺失: ".data ++ f ]))
            ([], ms0)
          ({ status := "success".data, uploaded := final.1, messages := final.2 },
           ev0 ++ [Ev.quitDriver])

/-! ## Concrete environments used by the witness theorems -/

/-- Candidate with a direct absolute attachment href. -/
def candW : Candidate := { href := "http://h/a.pdf".data, onclick := [] }

/-- Resolver environment whose downloads succeed into the task directory. -/
def envW : ProbeEnv :=
  { windowAt := fun _ => none,
    perfAt := fun _ => [],
    currentUrl := "http://h/p".data,
    containerHtml := fun _ => none,
    download := fun u => some ( "/w/7/".data ++ pathName u) }

/-- Variant of envW with active probe oracles, to exhibit independence. -/
def envW2 : ProbeEnv :=
  { envW with
    windowAt := fun _ => some ( "http://h/other.pdf".data ),
    perfAt := fun _ => [ "http://h/t.pdf".data ],
    containerHtml := fun _ => some ( "<div>x</div>".data ) }

/-- Resolver environment in which a new window with an attachment URL appears
at the first poll and the trace would also match. -/
def envA : ProbeEnv :=
  { windowAt := fun _ => some ( "http://h/w.pdf".data ),
    perfAt := fun _ => [ "http://h/t.pdf".data ],
    currentUrl := "http://h/p".data,
    containerHtml := fun _ => none,
    download := fun u => some ( "/w/7/".data ++ pathName u) }

/-- Variant of envA with different trace and container oracles. -/
def envA2 : ProbeEnv :=
  { envA with
    perfAt := fun _ => [ "http://h/t2.pdf".data ],
    containerHtml := fun _ => some ( "<div>y</div>".data ) }

/-- Download environment whose request and write both succeed. -/
def dlEnvW : DlEnv :=
  { get := fun _ => .ok { status := 200 }, write := fun _ => .ok () }

/-- Upload environment whose zip archive holds two inner files. -/
def upEnvW : UpEnv :=
  { patoolibAvailable := true,
    extractZip := fun _ => .ok [ "a.txt".data, "b.txt".data ],
    extractRar := fun _ => .error "no rar".data,
    upload := fun _ => (true, "HTTP200".data ) }

/-- Task environment that builds, navigates and reads a title but downloads
nothing. -/
def taskEnvW : TaskEnv :=
  { workDirExists := true,
    build := .ok (),
    nav := .ok (),
    titleTry := .ok ( "招标公告".data ),
    titleExc := .ok ( "招标公告".data ),
    stratA := [],
    stratB := [],
    fileExists := fun _ => true,
    upEnv := upEnvW }

/-- Task environment whose session dies after a successful navigation: the
title try block raises and the except-arm driver.title raises again. -/
def taskEnvTitleFail : TaskEnv :=
  { workDirExists := false,
    build := .ok (),
    nav := .ok (),
    titleTry := .error ( "h3 lookup raised".data ),
    titleExc := .error ( "session gone".data ),
    stratA := [],
    stratB := [],
    fileExists := fun _ => true,
    upEnv := upEnvW }

/-- Knowledge-store environment whose post succeeds with status 200. -/
def bsEnvW : BsEnv := { openFile := fun _ => .ok (), post := .ok 200 }

/-! ## Helper lemmas -/

/-- A list is a Boolean prefix of itself followed by anything. -/
theorem isPrefixOf_append (a t : List Char) : a.isPrefixOf (a ++ t) = true := by
  induction a with
  | nil => simp [List.isPrefixOf]
  | cons x xs ih => simp [List.isPrefixOf, ih]

/-- Boolean prefix gives an append decomposition. -/
theorem exists_append_of_isPrefixOf {a s : List Char} (h : a.isPrefixOf s = true) :
    ∃ t, s = a ++ t := by
  induction a generalizing s with
  | nil => exact ⟨s, rfl⟩
  | cons x xs ih =>
    cases s with
    | nil => simp [List.isPrefixOf] at h
    | cons y ys =>
      simp only [List.isPrefixOf, Bool.and_eq_true, beq_iff_eq] at h
      obtain ⟨rfl, h2⟩ := h
      obtain ⟨t, rfl⟩ := ih h2
      exact ⟨t, rfl⟩

/-- dropWhile distributes over an append whose boundary element fails the
predicate. -/
theorem dropWhile_append_of_head_false (p : Char → Bool) (l1 l2 : List Char) (c : Char)
    (hc : p c = false) :
    List.dropWhile p (l1 ++ c :: l2) = List.dropWhile p l1 ++ c :: l2 := by
  induction l1 with
  | nil => simp [List.dropWhile_cons, hc]
  | cons a as ih =>
    by_cases ha : p a = true
    · simp [List.dropWhile_cons, ha, ih]
    · rw [Bool.not_eq_true] at ha
      simp [List.dropWhile_cons, ha]

/-- A string that starts with http still does after stripping and
lowercasing, as Case 1 of the candidate loop tests it. -/
theorem startsWith_http_strip_lower {s : List Char}
    (h : startsWithStr s ( "http".data ) = true) :
    startsWithStr (lower (strip s)) ( "http".data ) = true := by
  obtain ⟨t, rfl⟩ := exists_append_of_isPrefixOf h
  unfold startsWithStr strip lower
  have h1 : List.dropWhile Char.isWhitespace ( "http".data ++ t) = "http".data ++ t := by
    show List.dropWhile Char.isWhitespace ('h' :: ( "ttp".data ++ t)) = _
    rw [List.dropWhile_cons, if_neg (by decide)]
    rfl
  rw [h1, List.reverse_append]
  have h2 : ( "http".data ).reverse = 'p' :: "tth".data := rfl
  rw [h2, dropWhile_append_of_head_false Char.isWhitespace t.reverse ( "tth".data ) 'p'
    (by decide)]
  rw [List.reverse_append]
  have h3 : ('p' :: "tth".data ).reverse = "http".data := rfl
  rw [h3, List.map_append]
  have h4 : List.map Char.toLower ( "http".data ) = "http".data := rfl
  rw [h4]
  exact isPrefixOf_append _ _

/-- probeA reads only the window oracle and the downloader. -/
theorem probeA_congr (e1 e2 : ProbeEnv) (hw : e1.windowAt = e2.windowAt)
    (hd : e1.download = e2.download) : probeA e1 = probeA e2 := by
  unfold probeA
  rw [hw, hd]

/-- probeB reads only the trace oracle, the current URL and the downloader. -/
theorem probeB_congr (e1 e2 : ProbeEnv) (hp : e1.perfAt = e2.perfAt)
    (hc : e1.currentUrl = e2.currentUrl) (hd : e1.download = e2.download) :
    probeB e1 = probeB e2 := by
  unfold probeB
  rw [hp, hc, hd]

/-- Attempts and messages accumulated by the inner-file upload fold. -/
theorem foldl_uploadInner_spec (env : UpEnv) (path task_id t15 : List Char)
    (files : List (List Char)) (acc : UpResult) :
    (files.foldl (fun a fi => uploadInner env path task_id t15 fi a) acc).attempts
      = acc.attempts ++ files.map (inner_dest path task_id t15)
  ∧ (files.foldl (fun a fi => uploadInner env path task_id t15 fi a) acc).messages
      = acc.messages ++ files.map (perInnerMsg env path task_id t15) := by
  induction files generalizing acc with
  | nil => simp
  | cons f fs ih =>
    simp only [List.foldl_cons, List.map_cons]
    obtain ⟨h1, h2⟩ := ih (uploadInner env path task_id t15 f acc)
    refine ⟨?_, ?_⟩
    · rw [h1]; simp [uploadInner]
    · rw [h2]; simp [uploadInner]

/-! ## Claim theorems -/

/-- Claim C1: a candidate whose href starts with http and is
attachment-shaped (in the sense of the looks_like_attachment predicate the
code applies, Case 1 at 111.py lines 436-441) is downloaded directly with
the DirectHref tag, no click is performed, and no probe oracle is consulted:
the result is the same in any environment that only agrees on the
downloader. -/
theorem direct_href_short_circuit (env env2 : ProbeEnv) (c : Candidate)
    (hd : env2.download = env.download)
    (hh : startsWithStr c.href ( "http".data ) = true)
    (ha : looks_like_attachment c.href = true) :
    process_candidate env2 c =
      { download := (env.download c.href).map (fun p => (p, Via.DirectHref)),
        clicked := false } := by
  have hne : c.href.isEmpty = false := by
    cases hcv : c.href with
    | nil => rw [hcv] at hh; exact absurd hh (by decide)
    | cons x xs => rfl
  have h2 := startsWith_http_strip_lower hh
  unfold process_candidate
  rw [hne, h2, ha, hd]
  simp

/-- Witness for C1: the direct-href candidate resolves to its download under
the probe-active environment, untouched by window, trace and container
oracles. -/
theorem direct_href_short_circuit_witness :
    process_candidate envW2 candW =
      { download := some ( "/w/7/a.pdf".data, Via.DirectHref), clicked := false } := by
  have h := direct_href_short_circuit envW envW2 candW rfl (by decide) (by decide)
  rw [h]
  rfl

/-- Claim C2: after a click the three probes run in the fixed order
new-window, network-trace, DOM-container, each with bounded polling, and the
first successful download skips the rest; in particular when the new-window
probe succeeds the result carries the NewWindow tag in every environment
agreeing on the window oracle and the downloader (the trace and container
oracles are arbitrary), and when it fails a successful trace probe yields
NetworkTrace irrespective of the container oracle (111.py lines 462-540). -/
theorem after_click_priority (env env2 : ProbeEnv) (selid : Option (List Char))
    (p : List Char)
    (hw : env2.windowAt = env.windowAt) (hd : env2.download = env.download) :
    (probeA env = some p → after_click env2 selid = some (p, Via.NewWindow))
  ∧ (env2.perfAt = env.perfAt → env2.currentUrl = env.currentUrl →
      probeA env = none → probeB env = some p →
      after_click env2 selid = some (p, Via.NetworkTrace)) := by
  have hA := probeA_congr env2 env hw hd
  refine ⟨?_, ?_⟩
  · intro h
    unfold after_click
    rw [hA, h]
  · intro hp hc hna hb
    have hB := probeB_congr env2 env hp hc hd
    unfold after_click
    rw [hA, hna, hB, hb]

/-- Witness for C2: with both a new window and a matching trace record
available, the resolved attachment is the new-window one, and the varied
trace and container oracles of the second environment are not consulted. -/
theorem after_click_priority_witness :
    after_click envA2 none = some ( "/w/7/w.pdf".data, Via.NewWindow) :=
  (after_click_priority envA envA2 none ( "/w/7/w.pdf".data ) rfl rfl).1 (by decide)

/-- Claim C3: download_with_session is total with its outcome encoded in the
returned option — every failure of the request, a 4xx/5xx status, or a write
failure yields none, and when all steps succeed it returns the output path
derived from the URL (111.py lines 292-308). -/
theorem download_with_session_total (env : DlEnv) (url out_dir : List Char)
    (ov : Option (List Char)) :
    (∀ e, env.get url = .error e → download_with_session env url out_dir ov = none)
  ∧ (∀ r, env.get url = .ok r → 400 ≤ r.status →
      download_with_session env url out_dir ov = none)
  ∧ (∀ r e, env.get url = .ok r → r.status < 400 →
      env.write (dws_out_path url out_dir ov) = .error e →
      download_with_session env url out_dir ov = none)
  ∧ (∀ r, env.get url = .ok r → r.status < 400 →
      env.write (dws_out_path url out_dir ov) = .ok () →
      download_with_session env url out_dir ov = some (dws_out_path url out_dir ov)) := by
  refine ⟨?_, ?_, ?_, ?_⟩
  · intro e he
    simp [download_with_session, dws_body, he]
  · intro r hr hs
    simp [download_with_session, dws_body, hr, hs]
  · intro r e hr hs hw
    simp [download_with_session, dws_body, hr, Nat.not_le.mpr hs, hw]
  · intro r hr hs hw
    simp [download_with_session, dws_body, hr, Nat.not_le.mpr hs, hw]

/-- Witness for C3: a succeeding request and write produce the derived local
path, here for a URL naming a pdf. -/
theorem download_with_session_total_witness :
    download_with_session dlEnvW ( "http://h/a.pdf".data ) ( "/w/7".data ) none
      = some (dws_out_path ( "http://h/a.pdf".data ) ( "/w/7".data ) none) :=
  (download_with_session_total dlEnvW ( "http://h/a.pdf".data ) ( "/w/7".data ) none).2.2.2
    { status := 200 } rfl (by decide) rfl

/-- Claim C4: a zip archive whose expansion yields the inner files listed by
the walk is uploaded inner-file by inner-file: the upload attempts are
exactly one per inner file under the inner naming rule, each is reported in
the messages log with its own success flag, and the single-unit destination
the non-archive branch would use is never among the attempts (111.py lines
313-333). -/
theorem zip_uploaded_per_inner_file (env : UpEnv) (path task_id t15 : List Char)
    (uploaded0 messages0 : List (List Char)) (files : List (List Char))
    (hsfx : lower (pathSuffix path) = ".zip".data)
    (hex : env.extractZip path = .ok files) :
    (extract_and_upload_file env path task_id t15 uploaded0 messages0).attempts
      = files.map (inner_dest path task_id t15)
  ∧ (extract_and_upload_file env path task_id t15 uploaded0 messages0).attempts.length
      = files.length
  ∧ (extract_and_upload_file env path task_id t15 uploaded0 messages0).messages
      = messages0 ++ [ "  解压 zip 成功: ".data ++ pathName path ]
        ++ files.map (perInnerMsg env path task_id t15)
  ∧ (pathParent path ++ [ slashChar ] ++ single_std_name task_id t15 (pathName path))
      ∉ (extract_and_upload_file env path task_id t15 uploaded0 messages0).attempts := by
  have hE : extract_and_upload_file env path task_id t15 uploaded0 messages0
      = files.foldl (fun a fi => uploadInner env path task_id t15 fi a)
          { uploaded := uploaded0,
            messages := messages0 ++ [ "  解压 zip 成功: ".data ++ pathName path ],
            attempts := [] } := by
    unfold extract_and_upload_file
    rw [hsfx, if_pos rfl, hex]
  obtain ⟨hAtt, hMsg⟩ := foldl_uploadInner_spec env path task_id t15 files
    { uploaded := uploaded0,
      messages := messages0 ++ [ "  解压 zip 成功: ".data ++ pathName path ],
      attempts := [] }
  rw [hE, hAtt, hMsg]
  refine ⟨by simp, by simp, by simp, ?_⟩
  intro hmem
  simp only [List.nil_append, List.mem_map] at hmem
  obtain ⟨fi, hfi, hEq⟩ := hmem
  have hlen := congrArg List.length hEq
  simp [inner_dest, inner_std_name, single_std_name, List.length_append] at hlen

/-- Witness for C4: the two-file zip archive yields exactly two upload
attempts and the single-unit name is not among them. -/
theorem zip_uploaded_per_inner_file_witness :
    (extract_and_upload_file upEnvW ( "/w/7/x.zip".data ) ( "7".data ) ( "T".data )
        [] []).attempts.length = 2
  ∧ (pathParent ( "/w/7/x.zip".data ) ++ [ slashChar ]
        ++ single_std_name ( "7".data ) ( "T".data ) (pathName ( "/w/7/x.zip".data )))
      ∉ (extract_and_upload_file upEnvW ( "/w/7/x.zip".data ) ( "7".data ) ( "T".data )
          [] []).attempts := by
  have h := zip_uploaded_per_inner_file upEnvW ( "/w/7/x.zip".data ) ( "7".data )
    ( "T".data ) [] [] [ "a.txt".data, "b.txt".data ] (by decide) rfl
  exact ⟨by rw [h.2.1]; rfl, h.2.2.2⟩

/-- Claim C5: when strategy A and strategy B together download nothing, the
task result is no_content and the list of uploaded file names is empty
(111.py lines 647-658; the caller reads the absent uploaded key as the empty
list at line 751).  The strategies only run once the title extraction has
returned — the claim's antecedent presupposes it, stated here as the
title-result hypothesis. -/
theorem no_downloads_no_content (env : TaskEnv) (task_id t : List Char)
    (hb : env.build = .ok ()) (hn : env.nav = .ok ())
    (ht : page_title_result env = .ok t)
    (hA : env.stratA = []) (hB : env.stratB = []) :
    (handle_single_task env task_id).1.status = "no_content".data
  ∧ (handle_single_task env task_id).1.uploaded = [] := by
  simp [handle_single_task, hb, hn, ht, hA, hB]

/-- Witness for C5: the empty-strategies environment ends in no_content with
no uploads. -/
theorem no_downloads_no_content_witness :
    (handle_single_task taskEnvW ( "7".data )).1.status = "no_content".data
  ∧ (handle_single_task taskEnvW ( "7".data )).1.uploaded = [] :=
  no_downloads_no_content taskEnvW ( "7".data ) ( "招标公告".data ) rfl rfl rfl rfl rfl

/-- Claim C6: on every exit path of a task — build failure, navigation
failure, title-read escape, no content, or success — the event trace starts
with the working-directory purge (when a stale directory exists) followed by
its recreation, and no later event deletes or recreates it (111.py lines
610-613 run before the try block; line 612 is the only rmtree). -/
theorem workdir_purged_only_at_start (env : TaskEnv) (task_id : List Char) :
    ∃ rest, (handle_single_task env task_id).2
        = (if env.workDirExists then [Ev.purgeWorkDir] else []) ++ Ev.createWorkDir :: rest
      ∧ Ev.purgeWorkDir ∉ rest ∧ Ev.createWorkDir ∉ rest := by
  cases hb : env.build with
  | error e =>
    exact ⟨[], by simp [handle_single_task, hb], by simp, by simp⟩
  | ok u =>
    cases hn : env.nav with
    | error e =>
      exact ⟨[Ev.quitDriver, Ev.quitDriver], by simp [handle_single_task, hb, hn],
        by decide, by decide⟩
    | ok v =>
      cases ht : page_title_result env with
      | error e =>
        exact ⟨[Ev.quitDriver, Ev.quitDriver], by simp [handle_single_task, hb, hn, ht],
          by decide, by decide⟩
      | ok t =>
        refine ⟨[Ev.quitDriver], ?_, by decide, by decide⟩
        cases hA : env.stratA with
        | nil =>
          cases hB : env.stratB with
          | nil => simp [handle_single_task, hb, hn, ht, hA, hB]
          | cons b bs => simp [handle_single_task, hb, hn, ht, hA, hB]
        | cons a as => simp [handle_single_task, hb, hn, ht, hA]

/-- Claim C9 counterexample: a task whose driver builds and whose navigation
succeeds can still end with the error status — the title try block raises
and the unprotected driver.title of the except handler at 111.py line 635
raises again, escaping to the outer handler.  This refutes the claim that an
error status occurs only when browser-session construction or page
navigation fails. -/
theorem error_despite_build_and_nav_counterexample :
    taskEnvTitleFail.build = .ok () ∧ taskEnvTitleFail.nav = .ok ()
  ∧ (handle_single_task taskEnvTitleFail ( "7".data )).1.status = "error".data :=
  ⟨rfl, rfl, rfl⟩

/-- Claim C9 (amended): the single-task processor always returns a
structured result whose status is success, no_content or error; the error
status arises exactly from driver-construction failure, navigation failure,
or the escape of the title extraction (its except arm calls driver.title
unprotected at line 635) — local filesystem helpers being modelled total, as
the spec taxonomy also assumes — and whenever a driver was built the
teardown quit runs on every exit path. -/
theorem task_status_and_teardown (env : TaskEnv) (task_id : List Char) :
    ((handle_single_task env task_id).1.status = "success".data ∨
     (handle_single_task env task_id).1.status = "no_content".data ∨
     (handle_single_task env task_id).1.status = "error".data)
  ∧ ((handle_single_task env task_id).1.status = "error".data ↔
      ((∃ e, env.build = .error e) ∨ (env.build = .ok () ∧ ∃ e, env.nav = .error e) ∨
        (env.build = .ok () ∧ env.nav = .ok () ∧ ∃ e, page_title_result env = .error e)))
  ∧ (env.build = .ok () → Ev.quitDriver ∈ (handle_single_task env task_id).2) := by
  cases hb : env.build with
  | error e =>
    refine ⟨Or.inr (Or.inr ?_), ?_, ?_⟩ <;> simp [handle_single_task, hb]
  | ok u =>
    cases hn : env.nav with
    | error e =>
      refine ⟨Or.inr (Or.inr ?_), ?_, ?_⟩ <;> simp [handle_single_task, hb, hn]
    | ok v =>
      cases ht : page_title_result env with
      | error e =>
        have hst : (handle_single_task env task_id).1.status = "error".data := by
          simp [handle_single_task, hb, hn, ht]
        refine ⟨Or.inr (Or.inr hst), ?_, ?_⟩
        · rw [hst]
          refine ⟨fun _ => Or.inr (Or.inr ⟨by cases u; rfl, by cases v; rfl, e, rfl⟩),
            fun _ => rfl⟩
        · intro _; simp [handle_single_task, hb, hn, ht]
      | ok t =>
        cases hA : env.stratA with
        | nil =>
          cases hB : env.stratB with
          | nil =>
            have hst : (handle_single_task env task_id).1.status = "no_content".data := by
              simp [handle_single_task, hb, hn, ht, hA, hB]
            refine ⟨Or.inr (Or.inl hst), ?_, ?_⟩
            · rw [hst]
              refine ⟨fun h2 => absurd h2 (by decide), ?_⟩
              rintro (⟨e, he⟩ | ⟨-, e, he⟩ | ⟨-, -, e, he⟩) <;> simp at he
            · intro _; simp [handle_single_task, hb, hn, ht, hA, hB]
          | cons b bs =>
            have hst : (handle_single_task env task_id).1.status = "success".data := by
              simp [handle_single_task, hb, hn, ht, hA, hB]
            refine ⟨Or.inl hst, ?_, ?_⟩
            · rw [hst]
              refine ⟨fun h2 => absurd h2 (by decide), ?_⟩
              rintro (⟨e, he⟩ | ⟨-, e, he⟩ | ⟨-, -, e, he⟩) <;> simp at he
            · intro _; simp [handle_single_task, hb, hn, ht, hA, hB]
        | cons a as =>
          have hst : (handle_single_task env task_id).1.status = "success".data := by
            simp [handle_single_task, hb, hn, ht, hA]
          refine ⟨Or.inl hst, ?_, ?_⟩
          · rw [hst]
            refine ⟨fun h2 => absurd h2 (by decide), ?_⟩
            rintro (⟨e, he⟩ | ⟨-, e, he⟩ | ⟨-, -, e, he⟩) <;> simp at he
          · intro _; simp [handle_single_task, hb, hn, ht, hA]

/-- Witness for C9 (amended): on the empty-strategies environment the result
status is among the three forms, is not error, and teardown ran; on the
dead-session environment the error disjunction is realised by the
title-escape case. -/
theorem task_status_and_teardown_witness :
    ((handle_single_task taskEnvW ( "7".data )).1.status = "success".data ∨
     (handle_single_task taskEnvW ( "7".data )).1.status = "no_content".data ∨
     (handle_single_task taskEnvW ( "7".data )).1.status = "error".data)
  ∧ Ev.quitDriver ∈ (handle_single_task taskEnvW ( "7".data )).2
  ∧ ((handle_single_task taskEnvTitleFail ( "7".data )).1.status = "error".data ↔
      ((∃ e, taskEnvTitleFail.build = .error e) ∨
        (taskEnvTitleFail.build = .ok () ∧ ∃ e, taskEnvTitleFail.nav = .error e) ∨
        (taskEnvTitleFail.build = .ok () ∧ taskEnvTitleFail.nav = .ok () ∧
          ∃ e, page_title_result taskEnvTitleFail = .error e))) := by
  have h := task_status_and_teardown taskEnvW ( "7".data )
  have h2 := task_status_and_teardown taskEnvTitleFail ( "7".data )
  exact ⟨h.1, h.2.2 rfl, h2.2.1⟩

/-- Claim C7 counterexample: two anchors carrying the same attachment href
are both kept, so the candidate list of the Direct Link Scanner holds a
duplicate absolute URL — the anchor phase of 111.py lines 573-580 appends
without the membership check that only the markup phase performs. -/
theorem direct_links_duplicate_counterexample :
    ¬ (strategy_direct_links_candidates
        [ "http://h/a.pdf".data, "http://h/a.pdf".data ] [] ( "http://h/p".data )).Nodup := by
  decide

/-- Claim C7 (amended): the markup-scan phase resolves relative URLs against
the current page URL and appends a URL only when not already collected, so
it introduces no duplicates; the whole candidate list is duplicate-free
whenever the filtered anchor hrefs are (111.py lines 581-588). -/
theorem direct_links_nodup_of_anchor_nodup (anchors : List (List Char))
    (html currentUrl : List Char)
    (h : (anchors.filter anchorFilter).Nodup) :
    (strategy_direct_links_candidates anchors html currentUrl).Nodup := by
  unfold strategy_direct_links_candidates
  have main : ∀ (ms : List (List Char)) (c : List (List Char)), c.Nodup →
      (ms.foldl (directLinkStep currentUrl) c).Nodup := by
    intro ms
    induction ms with
    | nil => intro c hc; simpa using hc
    | cons m rest ih =>
      intro c hc
      simp only [List.foldl_cons]
      apply ih
      by_cases hl : looks_like_attachment m = true
      · by_cases hm : urljoin currentUrl m ∈ c
        · simpa [directLinkStep, hl, hm] using hc
        · have hstep : directLinkStep currentUrl c m = c ++ [urljoin currentUrl m] := by
            simp [directLinkStep, hl, hm]
          rw [hstep, List.nodup_append]
          exact ⟨hc, List.nodup_singleton _, by
            intro a hac hamem
            simp only [List.mem_singleton] at hamem
            subst hamem
            exact hm hac⟩
      · rw [Bool.not_eq_true] at hl
        simpa [directLinkStep, hl] using hc
  exact main _ _ h

/-- Witness for C7 (amended): distinct anchors stay duplicate-free through
the markup scan. -/
theorem direct_links_nodup_of_anchor_nodup_witness :
    (strategy_direct_links_candidates [ "http://h/a.pdf".data, "http://h/b.pdf".data ]
      [] ( "http://h/p".data )).Nodup :=
  direct_links_nodup_of_anchor_nodup _ _ _ (by decide)

/-- Claim C8 counterexample: for the URL http://h/a.pdf?x=1 the path
component ends in .pdf (the glossary notion, spec_attachment_shaped) yet
looks_like_attachment rejects it, because the code tests the end of the full
string, query included (111.py lines 121-125). -/
theorem looks_like_attachment_path_counterexample :
    ¬ (looks_like_attachment ( "http://h/a.pdf?x=1".data )
        = spec_attachment_shaped ( "http://h/a.pdf?x=1".data )) := by
  decide

/-- Claim C8 (amended): looks_like_attachment holds exactly when the whole
lowercased string ends in one of the recognized extensions — the second
disjunct of the source is redundant and the predicate ignores where the path
component ends. -/
theorem looks_like_attachment_iff_lower_suffix (u : List Char) :
    looks_like_attachment u = ATTACH_EXTS.any (fun e => e.isSuffixOf (lower u)) := by
  unfold looks_like_attachment
  by_cases hu : u.isEmpty = true
  · rw [List.isEmpty_iff] at hu
    subst hu
    decide
  · rw [Bool.not_eq_true] at hu
    rw [hu]
    simp only [Bool.false_eq_true, if_false]
    cases hsfx : ATTACH_EXTS.any (fun e => e.isSuffixOf (lower u)) with
    | false =>
      have hall : ∀ e ∈ ATTACH_EXTS, e.isSuffixOf (lower u) = false := by
        intro e he
        by_contra hne
        rw [Bool.not_eq_false] at hne
        have : ATTACH_EXTS.any (fun x => x.isSuffixOf (lower u)) = true :=
          List.any_eq_true.mpr ⟨e, he, hne⟩
        rw [hsfx] at this
        exact Bool.false_ne_true this
      rw [List.any_eq_false]
      intro e he
      simp [hall e he, hsfx]
    | true =>
      obtain ⟨e, he, hpe⟩ := List.any_eq_true.mp hsfx
      exact List.any_eq_true.mpr ⟨e, he, by rw [hpe]; rfl⟩

/-- Claim C10: upload_file_to_bisheng is total with its outcome in the
returned pair — true with the HTTP status marker exactly when opening, the
multipart post and the status check all succeed, false with a failure
message on a file-open error, a raised post exception, or a 4xx/5xx status
(111.py lines 372-381). -/
theorem upload_outcome_encoding (env : BsEnv) (file_path : List Char) :
    ((upload_file_to_bisheng env file_path).1 = true ↔
      (env.openFile file_path = .ok () ∧ ∃ st, env.post = .ok st ∧ st < 400))
  ∧ (∀ st, env.openFile file_path = .ok () → env.post = .ok st → st < 400 →
      upload_file_to_bisheng env file_path = (true, "HTTP".data ++ natToChars st))
  ∧ (∀ e, env.openFile file_path = .error e →
      (upload_file_to_bisheng env file_path).1 = false)
  ∧ (∀ e, env.openFile file_path = .ok () → env.post = .error e →
      (upload_file_to_bisheng env file_path).1 = false)
  ∧ (∀ st, env.openFile file_path = .ok () → env.post = .ok st → 400 ≤ st →
      (upload_file_to_bisheng env file_path).1 = false) := by
  refine ⟨?_, ?_, ?_, ?_, ?_⟩
  · cases ho : env.openFile file_path with
    | error e =>
      simp [upload_file_to_bisheng, ho]
    | ok u =>
      cases hp : env.post with
      | error e => simp [upload_file_to_bisheng, ho, hp]
      | ok st =>
        by_cases hst : 400 ≤ st
        · simp [upload_file_to_bisheng, ho, hp, hst, Nat.not_lt.mpr hst]
        · simp only [upload_file_to_bisheng, ho, hp, if_neg hst]
          simp [Nat.lt_of_not_le hst]
  · intro st ho hp hst
    simp [upload_file_to_bisheng, ho, hp, Nat.not_le.mpr hst]
  · intro e ho
    simp [upload_file_to_bisheng, ho]
  · intro e ho hp
    simp [upload_file_to_bisheng, ho, hp]
  · intro st ho hp hst
    simp [upload_file_to_bisheng, ho, hp, hst]

/-- Witness for C10: a status-200 post reports success with the HTTP200
marker. -/
theorem upload_outcome_encoding_witness :
    upload_file_to_bisheng bsEnvW ( "/w/7/f.pdf".data ) = (true, "HTTP".data ++ natToChars 200) :=
  (upload_outcome_encoding bsEnvW ( "/w/7/f.pdf".data )).2.1 200 rfl rfl (by decide)

end Scraper
